import Mathlib

/-!
Verification development for the serde-bigquery encoder.

The Rust source is shallowly embedded: `Type` (renamed `BQType`, since
`Type` is a Lean keyword) and `Field` from `src/serde_bigquery/src/types.rs`,
the literal serializer from `src/serde_bigquery/src/ser/serializer.rs`, the
struct serializer with its field-order normalizer (`FieldsBuffer`) from
`src/serde_bigquery/src/ser/struct_serializer.rs`, the typed wrapper from
`src/serde_bigquery/src/ser/typed_serializer.rs`, and the identifier
serializer from `src/serde_bigquery/src/ser/identifier.rs`.
-/

namespace SerdeBigquery

/-- `Type` from `types.rs` (renamed: `Type` is reserved in Lean).  A struct
field `Field { field_type, field_name }` is embedded as the pair
`BQType × Option String` (first component the type, second the name). -/
inductive BQType where
  | any
  | bool
  | number
  | string
  | bytes
  | struct (fields : List (BQType × Option String))
  | array (elem : BQType)

/-- `Field` from `types.rs`: `field_type` is `.1`, `field_name` is `.2`. -/
abbrev Field := BQType × Option String

/-- Name selection inside `Field::merge`: the first operand's name when
present, otherwise the second's. -/
def mergeName : Option String → Option String → Option String
  | some n, _ => some n
  | none, n => n

mutual

/-- `Type::matches` from `types.rs`. -/
def BQType.matches : BQType → BQType → Bool
  | .any, _ => true
  | _, .any => true
  | .bool, .bool => true
  | .number, .number => true
  | .string, .string => true
  | .bytes, .bytes => true
  | .struct fields, .struct other_fields => BQType.matchesFields fields other_fields
  | .array type_self, .array type_other => BQType.matches type_self type_other
  | _, _ => false

/-- The struct arm of `Type::matches`: equal length and pairwise positional
type matching (`fields.len() == other_fields.len() && zip ... all matches`),
written as simultaneous list recursion. -/
def BQType.matchesFields : List Field → List Field → Bool
  | [], [] => true
  | f1 :: fs, f2 :: gs => BQType.matches f1.1 f2.1 && BQType.matchesFields fs gs
  | _, _ => false

end

mutual

/-- `Type::merge` from `types.rs`. -/
def BQType.merge : BQType → BQType → Option BQType
  | .any, other => some other
  | self, .any => some self
  | .bool, .bool => some .bool
  | .number, .number => some .number
  | .string, .string => some .string
  | .bytes, .bytes => some .bytes
  | .struct fields, .struct other_fields =>
      (BQType.mergeFields fields other_fields).map .struct
  | .array type_self, .array type_other =>
      (BQType.merge type_self type_other).map .array
  | _, _ => none

/-- The struct arm of `Type::merge`: equal length and pairwise `Field::merge`
(`zip ... map merge ... collect`), written as simultaneous list recursion;
each field merges its type via `Type::merge` and its name via `mergeName`. -/
def BQType.mergeFields : List Field → List Field → Option (List Field)
  | [], [] => some []
  | f1 :: fs, f2 :: gs =>
      match BQType.merge f1.1 f2.1, BQType.mergeFields fs gs with
      | some t, some hs => some ((t, mergeName f1.2 f2.2) :: hs)
      | _, _ => none
  | _, _ => none

end

/-- `Field::merge` from `types.rs`. -/
def Field.merge (a b : Field) : Option Field :=
  (BQType.merge a.1 b.1).map (fun t => (t, mergeName a.2 b.2))


/-! ## Errors and the serde data model -/

/-- `Error` from `error.rs`.  The I/O and formatting variants cannot occur
when writing to an in-memory buffer, as `to_string` and `to_bytes` do, and
are omitted; `Message` carries ad hoc text (used below only by the
recursion-fuel guard, which never fires for the fuel the entry points
supply). -/
inductive Error where
  | message (msg : String)
  | unsupportedType
  | emptyStruct
  | invalidIdentifierType (t : BQType)
  | unexpectedType (expected found : BQType)
  | unexpectedStructField (f : Field)
  | duplicateStructField (name : String)

/-- The serde data model driving the serializer: one constructor per
`serde::Serializer` entry point.  Integer widths i8..i64 funnel to
`serialize_i64` and u8..u64 to `serialize_u64` in `serializer.rs`, so they
are embedded as `vI64 : Int` and `vU64 : Nat`; bytes are u8 values.  Floats
funnel to `serialize_f64`, which writes the Rust standard library Display
rendering of the f64; that rendering is produced outside this repository, so
a float value is carried as its already-rendered decimal text (`vF64`). -/
inductive Value where
  | vBool (b : Bool)
  | vI64 (n : Int)
  | vU64 (n : Nat)
  | vF64 (rendered : String)
  | vChar (c : Char)
  | vStr (s : String)
  | vBytes (bs : List Nat)
  | vNone
  | vSome (v : Value)
  | vUnit
  | vUnitStruct (name : String)
  | vUnitVariant (name variant : String)
  | vNewtypeStruct (name : String) (v : Value)
  | vNewtypeVariant (name variant : String) (v : Value)
  | vSeq (xs : List Value)
  | vTuple (xs : List Value)
  | vTupleStruct (name : String) (xs : List Value)
  | vTupleVariant (name variant : String) (xs : List Value)
  | vMap (entries : List (Value × Value))
  | vStruct (name : String) (fields : List (String × Value))
  | vStructVariant (name variant : String) (fields : List (String × Value))

/-! ## Text helpers -/

/-- One lowercase hexadecimal digit. -/
def hexDigit (n : Nat) : Char :=
  if n < 10 then Char.ofNat (48 + n) else Char.ofNat (87 + n)

/-- The escape written by `serialize_bytes` for one byte: a backslash, the
letter x, and two lowercase hex digits.  A u8 is below 256; larger values are
reduced mod 256 to keep the embedding total. -/
def hexByte (b : Nat) : String :=
  let b := b % 256
  String.mk ['\\', 'x', hexDigit (b / 16), hexDigit (b % 16)]

/-- `format_as_identifier` from `identifier.rs`: wrap in backticks; embedded
backticks and the empty name are not escaped (a known gap in the source). -/
def format_as_identifier (s : String) : String := "`" ++ s ++ "`"

/-- A UTF-8 continuation byte. -/
def isUtf8Cont (b : Nat) : Bool := 128 ≤ b && b ≤ 191

/-- UTF-8 validation and decoding exactly as performed by Rust
`std::str::from_utf8` (RFC 3629: no overlong forms, no surrogates, at most
U+10FFFF), which `IdentifierSerializer::serialize_bytes` uses to accept a
byte sequence iff it is valid text. -/
def utf8Decode : List Nat → Option (List Char)
  | [] => some []
  | b0 :: rest =>
    if b0 < 128 then
      (utf8Decode rest).map (fun cs => Char.ofNat b0 :: cs)
    else if 194 ≤ b0 && b0 ≤ 223 then
      match rest with
      | b1 :: rest2 =>
        if isUtf8Cont b1 then
          (utf8Decode rest2).map (fun cs =>
            Char.ofNat ((b0 - 192) * 64 + (b1 - 128)) :: cs)
        else none
      | [] => none
    else if b0 == 224 then
      match rest with
      | b1 :: b2 :: rest3 =>
        if (160 ≤ b1 && b1 ≤ 191) && isUtf8Cont b2 then
          (utf8Decode rest3).map (fun cs =>
            Char.ofNat (((b0 - 224) * 64 + (b1 - 128)) * 64 + (b2 - 128)) :: cs)
        else none
      | _ => none
    else if (225 ≤ b0 && b0 ≤ 236) || b0 == 238 || b0 == 239 then
      match rest with
      | b1 :: b2 :: rest3 =>
        if isUtf8Cont b1 && isUtf8Cont b2 then
          (utf8Decode rest3).map (fun cs =>
            Char.ofNat (((b0 - 224) * 64 + (b1 - 128)) * 64 + (b2 - 128)) :: cs)
        else none
      | _ => none
    else if b0 == 237 then
      match rest with
      | b1 :: b2 :: rest3 =>
        if (128 ≤ b1 && b1 ≤ 159) && isUtf8Cont b2 then
          (utf8Decode rest3).map (fun cs =>
            Char.ofNat (((b0 - 224) * 64 + (b1 - 128)) * 64 + (b2 - 128)) :: cs)
        else none
      | _ => none
    else if b0 == 240 then
      match rest with
      | b1 :: b2 :: b3 :: rest4 =>
        if (144 ≤ b1 && b1 ≤ 191) && (isUtf8Cont b2 && isUtf8Cont b3) then
          (utf8Decode rest4).map (fun cs =>
            Char.ofNat ((((b0 - 240) * 64 + (b1 - 128)) * 64 + (b2 - 128)) * 64
              + (b3 - 128)) :: cs)
        else none
      | _ => none
    else if 241 ≤ b0 && b0 ≤ 243 then
      match rest with
      | b1 :: b2 :: b3 :: rest4 =>
        if isUtf8Cont b1 && (isUtf8Cont b2 && isUtf8Cont b3) then
          (utf8Decode rest4).map (fun cs =>
            Char.ofNat ((((b0 - 240) * 64 + (b1 - 128)) * 64 + (b2 - 128)) * 64
              + (b3 - 128)) :: cs)
        else none
      | _ => none
    else if b0 == 244 then
      match rest with
      | b1 :: b2 :: b3 :: rest4 =>
        if (128 ≤ b1 && b1 ≤ 143) && (isUtf8Cont b2 && isUtf8Cont b3) then
          (utf8Decode rest4).map (fun cs =>
            Char.ofNat ((((b0 - 240) * 64 + (b1 - 128)) * 64 + (b2 - 128)) * 64
              + (b3 - 128)) :: cs)
        else none
      | _ => none
    else none

/-! ## Field-order normalizer state -/

/-- State of the field-order normalizer `FieldsBuffer` from
`struct_serializer.rs`: the remaining expected fields, and the buffered
out-of-order fields with their rendered text (a HashMap keyed by `Field`,
embedded as an association list with structural field equality). -/
abbrev FieldsBufferState := List Field × List (Field × String)

mutual
/-- Structural equality on `BQType` (the derived PartialEq of the source). -/
def BQType.beq : BQType → BQType → Bool
  | .any, .any => true
  | .bool, .bool => true
  | .number, .number => true
  | .string, .string => true
  | .bytes, .bytes => true
  | .struct fs, .struct gs => BQType.beqFields fs gs
  | .array a, .array b => BQType.beq a b
  | _, _ => false
/-- Structural equality on field lists. -/
def BQType.beqFields : List Field → List Field → Bool
  | [], [] => true
  | f :: fs, g :: gs => (BQType.beq f.1 g.1 && f.2 == g.2) && BQType.beqFields fs gs
  | _, _ => false
end

/-- Structural equality on `Field` (type and name), the HashMap key equality
used by `FieldsBuffer`. -/
def Field.beq (a b : Field) : Bool := BQType.beq a.1 b.1 && a.2 == b.2

/-- Remove the first buffered entry whose key equals the field, returning its
rendered text and the remaining buffer: `HashMap::remove` (and, when only the
presence test is used, the occupied check of `HashMap::insert`). -/
def lookupRemove : List (Field × String) → Field → Option (String × List (Field × String))
  | [], _ => none
  | (g, s) :: rest, f =>
    if Field.beq g f then some (s, rest)
    else (lookupRemove rest f).map (fun p => (p.1, (g, s) :: p.2))

/-- The " AS identifier" suffix written after a member whose key is present
and non-empty (`serialize_field`, and the drain in `serialize_struct_end`). -/
def asSuffix : Option String → String
  | some key => if key = "" then "" else " AS " ++ format_as_identifier key
  | none => ""

/-- The drain of `FieldsBuffer::drain` as consumed by
`serialize_struct_end`: for every remaining expected field, in order, a comma
when the emitted field list is non-empty, then the buffered rendering if one
matches (removing it) or the literal NULL, then the name suffix, and the
field is appended to the emitted field list. -/
def drainLoop : String → List Field → List (Field × String) → List Field →
    String × List Field
  | out, fields, _, [] => (out, fields)
  | out, fields, buffer, f :: rest =>
    let out := if fields.isEmpty then out else out ++ ","
    match lookupRemove buffer f with
    | some (s, buffer2) => drainLoop (out ++ s ++ asSuffix f.2) (fields ++ [f]) buffer2 rest
    | none => drainLoop (out ++ "NULL" ++ asSuffix f.2) (fields ++ [f]) buffer rest

/-- `StructSerializer::serialize_struct_end`: drain the buffer when a
`FieldsBuffer` is attached, then fail `EmptyStruct` on an empty field list or
write the closing parenthesis and return the struct type. -/
def serialize_struct_end (out : String) (fields : List Field) :
    Option FieldsBufferState → Except Error (String × BQType)
  | Option.none =>
    if fields.isEmpty then .error .emptyStruct
    else .ok (out ++ ")", .struct fields)
  | Option.some (remaining, buffer) =>
    match drainLoop out fields buffer remaining with
    | (out2, fields2) =>
      if fields2.isEmpty then .error .emptyStruct
      else .ok (out2 ++ ")", .struct fields2)


/-! ## The serializer

All functions below take recursion fuel as their first argument, purely as a
termination device: every call passes the fuel decremented by one, and the
entry points supply more fuel than the recursion depth of any value, so the
guard never fires there.
-/

mutual

/-- The `serde::Serializer` impl for `Serializer<W>` in `serializer.rs`:
serialize one value, returning the written text and the inferred type. -/
def serializeV : Nat → Value → Except Error (String × BQType)
  | 0, _ => .error (.message "recursion limit exceeded")
  | fuel + 1, v =>
    match v with
    | .vBool b => .ok (if b then "TRUE" else "FALSE", .bool)
    | .vI64 n => .ok (toString n, .number)
    | .vU64 n => .ok (toString n, .number)
    | .vF64 rendered => .ok (rendered, .number)
    | .vChar c => .ok ("\"" ++ c.toString ++ "\"", .string)
    | .vStr s => .ok ("\"" ++ s ++ "\"", .string)
    | .vBytes bs => .ok ("b\"" ++ String.join (bs.map hexByte) ++ "\"", .bytes)
    | .vNone => .ok ("NULL", .any)
    | .vSome v1 => serializeV fuel v1
    | .vUnit => .ok ("NULL", .any)
    | .vUnitStruct _ => .ok ("NULL", .any)
    | .vUnitVariant _ variant => .ok ("\"" ++ variant ++ "\"", .string)
    | .vNewtypeStruct _ v1 => serializeV fuel v1
    | .vNewtypeVariant _ _ _ => .error .unsupportedType
    | .vSeq xs => seqLoopV fuel .any false "[" xs
    | .vTuple xs =>
      if xs.isEmpty then .error .emptyStruct
      else
        match tupleLoopV fuel "STRUCT(" [] Option.none xs with
        | .error e => .error e
        | .ok (out, fields, st) => serialize_struct_end out fields st
    | .vTupleStruct _ xs =>
      if xs.isEmpty then .error .emptyStruct
      else
        match tupleLoopV fuel "STRUCT(" [] Option.none xs with
        | .error e => .error e
        | .ok (out, fields, st) => serialize_struct_end out fields st
    | .vTupleVariant _ _ _ => .error .unsupportedType
    | .vMap entries =>
      match mapLoopV fuel "STRUCT(" [] Option.none entries with
      | .error e => .error e
      | .ok (out, fields, st) => serialize_struct_end out fields st
    | .vStruct _ sfields =>
      if sfields.isEmpty then .error .emptyStruct
      else
        match structLoopV fuel "STRUCT(" [] Option.none sfields with
        | .error e => .error e
        | .ok (out, fields, st) => serialize_struct_end out fields st
    | .vStructVariant _ _ _ => .error .unsupportedType

/-- The `serde::Serializer` impl for `TypedSerializer` in
`typed_serializer.rs`: scalar-like calls delegate to the plain serializer and
check the returned type against the expected type via `matches`; a sequence
proceeds only under expected Any or Array, propagating the expected element
type; struct-shaped calls proceed only under expected Any or Struct,
attaching the expected fields to the normalizer; tagged aggregate variants
delegate (and fail `UnsupportedType`). -/
def serializeTypedV : Nat → BQType → Value → Except Error (String × BQType)
  | 0, _, _ => .error (.message "recursion limit exceeded")
  | fuel + 1, expected, v =>
    match v with
    | .vSeq xs =>
      match expected with
      | .any => seqLoopV fuel .any false "[" xs
      | .array element_type => seqLoopV fuel element_type false "[" xs
      | _ => .error (.unexpectedType expected (.array .any))
    | .vTuple xs =>
      match expected with
      | .any =>
        if xs.isEmpty then .error .emptyStruct
        else
          match tupleLoopV fuel "STRUCT(" [] Option.none xs with
          | .error e => .error e
          | .ok (out, fields, st) => serialize_struct_end out fields st
      | .struct efields =>
        if xs.isEmpty then .error .emptyStruct
        else
          match tupleLoopV fuel "STRUCT(" [] (Option.some (efields, [])) xs with
          | .error e => .error e
          | .ok (out, fields, st) => serialize_struct_end out fields st
      | _ => .error (.unexpectedType expected (.struct []))
    | .vTupleStruct _ xs =>
      match expected with
      | .any =>
        if xs.isEmpty then .error .emptyStruct
        else
          match tupleLoopV fuel "STRUCT(" [] Option.none xs with
          | .error e => .error e
          | .ok (out, fields, st) => serialize_struct_end out fields st
      | .struct efields =>
        if xs.isEmpty then .error .emptyStruct
        else
          match tupleLoopV fuel "STRUCT(" [] (Option.some (efields, [])) xs with
          | .error e => .error e
          | .ok (out, fields, st) => serialize_struct_end out fields st
      | _ => .error (.unexpectedType expected (.struct []))
    | .vTupleVariant _ _ _ => .error .unsupportedType
    | .vMap entries =>
      match expected with
      | .any =>
        match mapLoopV fuel "STRUCT(" [] Option.none entries with
        | .error e => .error e
        | .ok (out, fields, st) => serialize_struct_end out fields st
      | .struct efields =>
        match mapLoopV fuel "STRUCT(" [] (Option.some (efields, [])) entries with
        | .error e => .error e
        | .ok (out, fields, st) => serialize_struct_end out fields st
      | _ => .error (.unexpectedType expected (.struct []))
    | .vStruct _ sfields =>
      match expected with
      | .any =>
        if sfields.isEmpty then .error .emptyStruct
        else
          match structLoopV fuel "STRUCT(" [] Option.none sfields with
          | .error e => .error e
          | .ok (out, fields, st) => serialize_struct_end out fields st
      | .struct efields =>
        if sfields.isEmpty then .error .emptyStruct
        else
          match structLoopV fuel "STRUCT(" [] (Option.some (efields, [])) sfields with
          | .error e => .error e
          | .ok (out, fields, st) => serialize_struct_end out fields st
      | _ => .error (.unexpectedType expected (.struct []))
    | .vStructVariant _ _ _ => .error .unsupportedType
    | _ =>
      match serializeV fuel v with
      | .error e => .error e
      | .ok (txt, found) =>
        if expected.matches found then .ok (txt, found)
        else .error (.unexpectedType expected found)

/-- Modelled from the spec (sections 4.5 and the sequence rules of 4.3): the
element loop of `SeqSerializer`.  The snapshot under src/ carries the
merge-folding `serialize_element` of `serializer.rs` but not the final glue
`SeqSerializer::with_element_type` that `typed_serializer.rs` calls, so per
the spec each element is encoded through the typed wrapper with the running
element type as expected type, its type is folded into the running element
type via `merge` (failure: `UnexpectedType` with the running type as
expected and the element type as found), a comma precedes every element but
the first, and the close writes the bracket and returns Array of the running
element type. -/
def seqLoopV : Nat → BQType → Bool → String → List Value → Except Error (String × BQType)
  | _, element_type, _, out, [] => .ok (out ++ "]", .array element_type)
  | 0, _, _, _, _ :: _ => .error (.message "recursion limit exceeded")
  | fuel + 1, element_type, has_elements, out, x :: rest =>
    let out := if has_elements then out ++ "," else out
    match serializeTypedV fuel element_type x with
    | .error e => .error e
    | .ok (txt, t) =>
      match element_type.merge t with
      | Option.some merged => seqLoopV fuel merged true (out ++ txt) rest
      | Option.none => .error (.unexpectedType element_type t)

/-- `StructSerializer::serialize_field` iterated over unnamed (tuple-shaped)
members: without a buffer every member is emitted (comma when the emitted
field list is non-empty, rendered text, no name suffix); with a buffer a
key-less member is positionally expected (`decide` arm for a missing name),
or fails `UnexpectedStructField` when no expected fields remain. -/
def tupleLoopV : Nat → String → List Field → Option FieldsBufferState → List Value →
    Except Error (String × List Field × Option FieldsBufferState)
  | _, out, fields, st, [] => .ok (out, fields, st)
  | 0, _, _, _, _ :: _ => .error (.message "recursion limit exceeded")
  | fuel + 1, out, fields, st, x :: rest =>
    match st with
    | Option.none =>
      let out := if fields.isEmpty then out else out ++ ","
      match serializeV fuel x with
      | .error e => .error e
      | .ok (txt, t) =>
        tupleLoopV fuel (out ++ txt) (fields ++ [(t, Option.none)]) Option.none rest
    | Option.some (remaining, buffer) =>
      match remaining with
      | [] => .error (.unexpectedStructField (.any, Option.none))
      | _ :: tail =>
        let out := if fields.isEmpty then out else out ++ ","
        match serializeV fuel x with
        | .error e => .error e
        | .ok (txt, t) =>
          tupleLoopV fuel (out ++ txt) (fields ++ [(t, Option.none)])
            (Option.some (tail, buffer)) rest

/-- `StructSerializer::serialize_field` iterated over named members: without
a buffer every member is emitted with its name suffix; with a buffer the
`decide` of `FieldsBuffer` runs first: a name-less expected head or a name
match is expected (emit, advance the cursor), a name mismatch renders the
member in isolation and buffers it keyed by its resolved field (failing
`DuplicateStructField` when that exact field is already buffered), and an
exhausted expected list fails `UnexpectedStructField`. -/
def structLoopV : Nat → String → List Field → Option FieldsBufferState → List (String × Value) →
    Except Error (String × List Field × Option FieldsBufferState)
  | _, out, fields, st, [] => .ok (out, fields, st)
  | 0, _, _, _, _ :: _ => .error (.message "recursion limit exceeded")
  | fuel + 1, out, fields, st, (key, x) :: rest =>
    match st with
    | Option.none =>
      let out := if fields.isEmpty then out else out ++ ","
      match serializeV fuel x with
      | .error e => .error e
      | .ok (txt, t) =>
        structLoopV fuel (out ++ txt ++ asSuffix (Option.some key))
          (fields ++ [(t, Option.some key)]) Option.none rest
    | Option.some (remaining, buffer) =>
      match remaining with
      | [] => .error (.unexpectedStructField (.any, Option.some key))
      | head :: tail =>
        match head.2 with
        | Option.none =>
          let out := if fields.isEmpty then out else out ++ ","
          match serializeV fuel x with
          | .error e => .error e
          | .ok (txt, t) =>
            structLoopV fuel (out ++ txt ++ asSuffix (Option.some key))
              (fields ++ [(t, Option.some key)]) (Option.some (tail, buffer)) rest
        | Option.some expected_name =>
          if expected_name = key then
            let out := if fields.isEmpty then out else out ++ ","
            match serializeV fuel x with
            | .error e => .error e
            | .ok (txt, t) =>
              structLoopV fuel (out ++ txt ++ asSuffix (Option.some key))
                (fields ++ [(t, Option.some key)]) (Option.some (tail, buffer)) rest
          else
            match serializeV fuel x with
            | .error e => .error e
            | .ok (txt, t) =>
              match lookupRemove buffer (t, Option.some key) with
              | Option.some _ => .error (.duplicateStructField key)
              | Option.none =>
                structLoopV fuel out fields
                  (Option.some (remaining, buffer ++ [((t, Option.some key), txt)])) rest

/-- `SerializeMap::serialize_entry` iterated: each entry first resolves its
key through the identifier serializer, then runs the named-member step with
that key. -/
def mapLoopV : Nat → String → List Field → Option FieldsBufferState → List (Value × Value) →
    Except Error (String × List Field × Option FieldsBufferState)
  | _, out, fields, st, [] => .ok (out, fields, st)
  | 0, _, _, _, _ :: _ => .error (.message "recursion limit exceeded")
  | fuel + 1, out, fields, st, (k, x) :: rest =>
    match toIdentifierV fuel k with
    | .error e => .error e
    | .ok key =>
      match st with
      | Option.none =>
        let out := if fields.isEmpty then out else out ++ ","
        match serializeV fuel x with
        | .error e => .error e
        | .ok (txt, t) =>
          mapLoopV fuel (out ++ txt ++ asSuffix (Option.some key))
            (fields ++ [(t, Option.some key)]) Option.none rest
      | Option.some (remaining, buffer) =>
        match remaining with
        | [] => .error (.unexpectedStructField (.any, Option.some key))
        | head :: tail =>
          match head.2 with
          | Option.none =>
            let out := if fields.isEmpty then out else out ++ ","
            match serializeV fuel x with
            | .error e => .error e
            | .ok (txt, t) =>
              mapLoopV fuel (out ++ txt ++ asSuffix (Option.some key))
                (fields ++ [(t, Option.some key)]) (Option.some (tail, buffer)) rest
          | Option.some expected_name =>
            if expected_name = key then
              let out := if fields.isEmpty then out else out ++ ","
              match serializeV fuel x with
              | .error e => .error e
              | .ok (txt, t) =>
                mapLoopV fuel (out ++ txt ++ asSuffix (Option.some key))
                  (fields ++ [(t, Option.some key)]) (Option.some (tail, buffer)) rest
            else
              match serializeV fuel x with
              | .error e => .error e
              | .ok (txt, t) =>
                match lookupRemove buffer (t, Option.some key) with
                | Option.some _ => .error (.duplicateStructField key)
                | Option.none =>
                  mapLoopV fuel out fields
                    (Option.some (remaining, buffer ++ [((t, Option.some key), txt)])) rest

/-- The `serde::Serializer` impl for `IdentifierSerializer` in
`identifier.rs`: accept string-like values as raw identifier text, reject
everything else with `InvalidIdentifierType`; an absent option and a unit
both succeed without writing (yielding whatever has accumulated, here the
empty identifier). -/
def toIdentifierV : Nat → Value → Except Error String
  | 0, _ => .error (.message "recursion limit exceeded")
  | fuel + 1, v =>
    match v with
    | .vBool _ => .error (.invalidIdentifierType .bool)
    | .vI64 _ => .error (.invalidIdentifierType .number)
    | .vU64 _ => .error (.invalidIdentifierType .number)
    | .vF64 _ => .error (.invalidIdentifierType .number)
    | .vChar c => .ok c.toString
    | .vStr s => .ok s
    | .vBytes bs =>
      match utf8Decode bs with
      | Option.some cs => .ok (String.mk cs)
      | Option.none => .error (.invalidIdentifierType .bytes)
    | .vNone => .ok ""
    | .vSome v1 => toIdentifierV fuel v1
    | .vUnit => .ok ""
    | .vUnitStruct name => .ok name
    | .vUnitVariant _ variant => .ok variant
    | .vNewtypeStruct _ v1 => toIdentifierV fuel v1
    | .vNewtypeVariant _ _ v1 => toIdentifierV fuel v1
    | .vSeq _ => .error (.invalidIdentifierType (.array .any))
    | .vTuple _ => .error (.invalidIdentifierType (.struct []))
    | .vTupleStruct _ _ => .error (.invalidIdentifierType (.struct []))
    | .vTupleVariant _ _ _ => .error (.invalidIdentifierType (.struct []))
    | .vMap _ => .error (.invalidIdentifierType (.struct []))
    | .vStruct _ _ => .error (.invalidIdentifierType (.struct []))
    | .vStructVariant _ _ _ => .error (.invalidIdentifierType (.struct []))

end

mutual
/-- Size of a value, bounding the recursion depth of the serializer. -/
def Value.size : Value → Nat
  | .vBool _ => 1
  | .vI64 _ => 1
  | .vU64 _ => 1
  | .vF64 _ => 1
  | .vChar _ => 1
  | .vStr _ => 1
  | .vBytes _ => 1
  | .vNone => 1
  | .vSome v => Value.size v + 1
  | .vUnit => 1
  | .vUnitStruct _ => 1
  | .vUnitVariant _ _ => 1
  | .vNewtypeStruct _ v => Value.size v + 1
  | .vNewtypeVariant _ _ v => Value.size v + 1
  | .vSeq xs => Value.sizeList xs + 1
  | .vTuple xs => Value.sizeList xs + 1
  | .vTupleStruct _ xs => Value.sizeList xs + 1
  | .vTupleVariant _ _ xs => Value.sizeList xs + 1
  | .vMap es => Value.sizePairs es + 1
  | .vStruct _ fs => Value.sizeNamed fs + 1
  | .vStructVariant _ _ fs => Value.sizeNamed fs + 1
/-- Size of a list of values. -/
def Value.sizeList : List Value → Nat
  | [] => 0
  | x :: xs => Value.size x + Value.sizeList xs + 1
/-- Size of a list of key-value pairs. -/
def Value.sizePairs : List (Value × Value) → Nat
  | [] => 0
  | kv :: xs => Value.size kv.1 + Value.size kv.2 + Value.sizePairs xs + 1
/-- Size of a list of named values. -/
def Value.sizeNamed : List (String × Value) → Nat
  | [] => 0
  | kv :: xs => Value.size kv.2 + Value.sizeNamed xs + 1
end

/-- Fuel supplied by the entry points: ample for the recursion depth of any
value (every recursive call strictly shrinks the value in hand). -/
def serializeFuel (v : Value) : Nat := 2 * Value.size v + 2

/-- Serializing one value on a fresh serializer (the body of `to_bytes`):
the full rendered text plus the inferred type. -/
def serialize (v : Value) : Except Error (String × BQType) :=
  serializeV (serializeFuel v) v

/-- `to_string` from `serializer.rs`: the rendered text alone. -/
def to_string (v : Value) : Except Error String :=
  (serialize v).map Prod.fst

/-- `to_identifier` from `identifier.rs`. -/
def to_identifier (v : Value) : Except Error String :=
  toIdentifierV (serializeFuel v) v


/-- Closed-form text of a drain that finds nothing buffered: one comma, the
literal NULL and the name suffix per remaining expected field, in order. -/
def nullDrainText : List Field → String
  | [] => ""
  | f :: rest => ",NULL" ++ asSuffix f.2 ++ nullDrainText rest

/-! ## Theorems -/

theorem matches_any_left (a : BQType) : BQType.matches .any a = true := by
  cases a <;> rfl

theorem matches_any_right (a : BQType) : BQType.matches a .any = true := by
  cases a <;> rfl

mutual
theorem matches_refl : (a : BQType) → a.matches a = true
  | .any => rfl
  | .bool => rfl
  | .number => rfl
  | .string => rfl
  | .bytes => rfl
  | .struct fs => by simpa [BQType.matches] using matchesFields_refl fs
  | .array t => by simpa [BQType.matches] using matches_refl t
theorem matchesFields_refl : (fs : List Field) → BQType.matchesFields fs fs = true
  | [] => rfl
  | f :: fs => by simp [BQType.matchesFields, matches_refl f.1, matchesFields_refl fs]
end

theorem matches_symm : ∀ a b : BQType, a.matches b = b.matches a :=
  BQType.matches.induct
    (fun a b => a.matches b = b.matches a)
    (fun fs gs => BQType.matchesFields fs gs = BQType.matchesFields gs fs)
    (fun x => by
      show BQType.matches .any x = BQType.matches x .any
      rw [matches_any_left, matches_any_right])
    (fun t _ => by
      show BQType.matches t .any = BQType.matches .any t
      rw [matches_any_right, matches_any_left])
    rfl rfl rfl rfl
    (fun fs gs ih => by
      show BQType.matchesFields fs gs = BQType.matchesFields gs fs
      exact ih)
    (fun a b ih => by
      show a.matches b = b.matches a
      exact ih)
    (fun t x hxany htany hbool hnum hstr hbytes hstruct harr => by
      cases t <;> cases x <;>
        first
          | rfl
          | exact (hxany rfl).elim
          | exact (htany rfl).elim
          | exact (hbool rfl rfl).elim
          | exact (hnum rfl rfl).elim
          | exact (hstr rfl rfl).elim
          | exact (hbytes rfl rfl).elim
          | exact (hstruct _ _ rfl rfl).elim
          | exact (harr _ _ rfl rfl).elim)
    rfl
    (fun f1 fs f2 gs ih1 ih2 => by
      simp only [BQType.matchesFields]
      rw [ih1, ih2])
    (fun t x h1 h2 => by
      cases t with
      | nil =>
        cases x with
        | nil => exact (h1 rfl rfl).elim
        | cons d ds => rfl
      | cons c cs =>
        cases x with
        | nil => rfl
        | cons d ds => exact (h2 c cs d ds rfl rfl).elim)

theorem matches_eq_merge_isSome : ∀ a b : BQType, a.matches b = (a.merge b).isSome :=
  BQType.matches.induct
    (fun a b => a.matches b = (a.merge b).isSome)
    (fun fs gs => BQType.matchesFields fs gs = (BQType.mergeFields fs gs).isSome)
    (fun x => by
      show BQType.matches .any x = (BQType.merge .any x).isSome
      cases x <;> rfl)
    (fun t _ => by
      show BQType.matches t .any = (BQType.merge t .any).isSome
      cases t <;> rfl)
    rfl rfl rfl rfl
    (fun fs gs ih => by
      show BQType.matchesFields fs gs = ((BQType.mergeFields fs gs).map BQType.struct).isSome
      rw [ih]
      cases BQType.mergeFields fs gs <;> rfl)
    (fun a b ih => by
      show a.matches b = ((a.merge b).map BQType.array).isSome
      rw [ih]
      cases a.merge b <;> rfl)
    (fun t x hxany htany hbool hnum hstr hbytes hstruct harr => by
      cases t <;> cases x <;>
        first
          | rfl
          | exact (hxany rfl).elim
          | exact (htany rfl).elim
          | exact (hbool rfl rfl).elim
          | exact (hnum rfl rfl).elim
          | exact (hstr rfl rfl).elim
          | exact (hbytes rfl rfl).elim
          | exact (hstruct _ _ rfl rfl).elim
          | exact (harr _ _ rfl rfl).elim)
    rfl
    (fun f1 fs f2 gs ih1 ih2 => by
      show (BQType.matches f1.1 f2.1 && BQType.matchesFields fs gs)
          = (BQType.mergeFields (f1 :: fs) (f2 :: gs)).isSome
      rw [ih1, ih2]
      show _ = (match BQType.merge f1.1 f2.1, BQType.mergeFields fs gs with
        | some t, some hs => some ((t, mergeName f1.2 f2.2) :: hs)
        | _, _ => none).isSome
      cases BQType.merge f1.1 f2.1 <;> cases BQType.mergeFields fs gs <;> rfl)
    (fun t x h1 h2 => by
      cases t with
      | nil =>
        cases x with
        | nil => exact (h1 rfl rfl).elim
        | cons d ds => rfl
      | cons c cs =>
        cases x with
        | nil => rfl
        | cons d ds => exact (h2 c cs d ds rfl rfl).elim)

theorem merge_isSome_comm (a b : BQType) : (a.merge b).isSome = (b.merge a).isSome := by
  rw [← matches_eq_merge_isSome, ← matches_eq_merge_isSome, matches_symm]



theorem drainLoop_snd (remaining : List Field) :
    ∀ out fields buffer, (drainLoop out fields buffer remaining).2 = fields ++ remaining := by
  induction remaining with
  | nil => intro out fields buffer; simp [drainLoop]
  | cons f rest ih =>
    intro out fields buffer
    simp only [drainLoop]
    cases lookupRemove buffer f with
    | none => rw [ih]; simp
    | some p => rw [ih]; simp

theorem drainLoop_empty_buffer (remaining : List Field) :
    ∀ out fields, fields ≠ [] →
      (drainLoop out fields [] remaining).1 = out ++ nullDrainText remaining := by
  induction remaining with
  | nil => intro out fields _; simp [drainLoop, nullDrainText]
  | cons f rest ih =>
    intro out fields hne
    have hfe : fields.isEmpty = false := by
      cases fields with
      | nil => exact absurd rfl hne
      | cons a as => rfl
    simp only [drainLoop, hfe, lookupRemove, nullDrainText]
    rw [ih _ (fields ++ [f]) (by simp)]
    have hcomma : ("," : String) ++ "NULL" = ",NULL" := rfl
    simp [String.append_assoc, ← hcomma]

theorem serialize_struct_end_buffered_ok (out : String) (fields remaining : List Field)
    (buffer : List (Field × String)) (s : String) (t : BQType)
    (h : serialize_struct_end out fields (Option.some (remaining, buffer)) = .ok (s, t)) :
    t = .struct (fields ++ remaining) := by
  simp only [serialize_struct_end] at h
  have h2 := drainLoop_snd remaining out fields buffer
  cases hd : drainLoop out fields buffer remaining with
  | mk out2 fields2 =>
    rw [hd] at h h2
    simp at h2
    by_cases he : fields2.isEmpty
    · simp [he] at h
    · simp [he] at h
      rw [← h.2, h2]

theorem serialize_struct_end_ok_nonempty (out : String) (fields : List Field)
    (st : Option FieldsBufferState) (s : String) (t : BQType)
    (h : serialize_struct_end out fields st = .ok (s, t)) :
    ∃ fs, t = .struct fs ∧ fs ≠ [] := by
  cases st with
  | none =>
    simp only [serialize_struct_end] at h
    by_cases he : fields.isEmpty
    · simp [he] at h
    · simp [he] at h
      exact ⟨fields, h.2.symm, by simpa using he⟩
  | some rb =>
    cases rb with
    | mk remaining buffer =>
      simp only [serialize_struct_end] at h
      cases hd : drainLoop out fields buffer remaining with
      | mk out2 fields2 =>
        rw [hd] at h
        by_cases he : fields2.isEmpty
        · simp [he] at h
        · simp [he] at h
          exact ⟨fields2, h.2.symm, by simpa using he⟩

/-- C1: for a struct encoded against an expected field list, the close-time
drain emits the remaining expected fields in their expected order — the
stashed rendered text of a buffered field (with its " AS name" suffix when
the name is present and non-empty), or the literal NULL with the same suffix
when the field was never supplied — so the closed element carries exactly the
emitted fields followed by the remaining expected fields; concretely,
encoding the array of maps a:false,b:1 then a:true yields NULL for the
missing b of the second element. -/
theorem claim_C1_struct_close_drain :
    (∀ remaining out fields buffer,
      (drainLoop out fields buffer remaining).2 = fields ++ remaining) ∧
    (∀ remaining out fields, fields ≠ [] →
      (drainLoop out fields [] remaining).1 = out ++ nullDrainText remaining) ∧
    (∀ out fields buffer f rest s buffer2,
      lookupRemove buffer f = Option.some (s, buffer2) →
      drainLoop out fields buffer (f :: rest)
        = drainLoop ((if fields.isEmpty then out else out ++ ",") ++ s ++ asSuffix f.2)
            (fields ++ [f]) buffer2 rest) ∧
    (∀ out fields remaining buffer s t,
      serialize_struct_end out fields (Option.some (remaining, buffer)) = .ok (s, t) →
      t = .struct (fields ++ remaining)) ∧
    to_string (.vSeq [.vMap [(.vStr "a", .vBool false), (.vStr "b", .vI64 1)],
                      .vMap [(.vStr "a", .vBool true)]])
      = .ok "[STRUCT(FALSE AS `a`,1 AS `b`),STRUCT(TRUE AS `a`,NULL AS `b`)]" := by
  refine ⟨drainLoop_snd, drainLoop_empty_buffer, ?_,
    fun out fields remaining buffer s t h =>
      serialize_struct_end_buffered_ok out fields remaining buffer s t h, rfl⟩
  intro out fields buffer f rest s buffer2 h
  simp only [drainLoop, h]

/-- C1 witness: the drain lemmas applied at concrete inputs — one field left
to synthesize as NULL, one buffered field spliced back in, and a concrete
successful close whose struct type is the emitted plus remaining fields. -/
theorem claim_C1_witness :
    (drainLoop "X" [(.bool, Option.some "a")] [] [(.number, Option.some "b")]).1
        = "X" ++ nullDrainText [(.number, Option.some "b")] ∧
    drainLoop "Y" [] [(((.number : BQType), Option.some "b"), "42")]
        [(.number, Option.some "b")]
      = drainLoop ((if ([] : List Field).isEmpty then "Y" else "Y" ++ ",") ++ "42"
          ++ asSuffix (Option.some "b")) [(.number, Option.some "b")] [] [] ∧
    (BQType.struct [(.bool, Option.some "a"), (.number, Option.some "b")])
      = .struct ([(.bool, Option.some "a")] ++ [(.number, Option.some "b")]) :=
  ⟨claim_C1_struct_close_drain.2.1 [(.number, Option.some "b")] "X" [(.bool, Option.some "a")]
      (List.cons_ne_nil _ _),
   claim_C1_struct_close_drain.2.2.1 "Y" [] [(((.number : BQType), Option.some "b"), "42")]
      (.number, Option.some "b") [] "42" [] rfl,
   claim_C1_struct_close_drain.2.2.2.1 "STRUCT(TRUE AS `a`" [(.bool, Option.some "a")]
      [(.number, Option.some "b")] [] "STRUCT(TRUE AS `a`,NULL AS `b`)"
      (.struct [(.bool, Option.some "a"), (.number, Option.some "b")]) rfl⟩

/-- C2: encoding the array of maps a:false,b:1 then b:2,a:true succeeds and
produces exactly the normalized text, the second element reordered to the
field order established by the first. -/
theorem claim_C2_field_order_normalization :
    serialize (.vSeq [.vMap [(.vStr "a", .vBool false), (.vStr "b", .vI64 1)],
                      .vMap [(.vStr "b", .vI64 2), (.vStr "a", .vBool true)]])
      = .ok ("[STRUCT(FALSE AS `a`,1 AS `b`),STRUCT(TRUE AS `a`,2 AS `b`)]",
             .array (.struct [(.bool, Option.some "a"), (.number, Option.some "b")])) := rfl

/-- C3: a sequence starts with running element type Any; each element's type
is folded in via merge, a merge failure producing UnexpectedType with the
running type as expected and the element type as found; close emits the
bracket and returns Array of the running type; heterogeneous arrays fail both
at top level and nested inside aggregate elements. -/
theorem claim_C3_seq_merge_folding :
    (∀ fuel xs, serializeV (fuel + 1) (.vSeq xs) = seqLoopV fuel .any false "[" xs) ∧
    (∀ fuel element_type has_elements out,
      seqLoopV fuel element_type has_elements out []
        = .ok (out ++ "]", .array element_type)) ∧
    (∀ fuel element_type has_elements out x rest txt t,
      serializeTypedV fuel element_type x = .ok (txt, t) →
      element_type.merge t = Option.none →
      seqLoopV (fuel + 1) element_type has_elements out (x :: rest)
        = .error (.unexpectedType element_type t)) ∧
    (∀ fuel element_type has_elements out x rest txt t merged,
      serializeTypedV fuel element_type x = .ok (txt, t) →
      element_type.merge t = Option.some merged →
      seqLoopV (fuel + 1) element_type has_elements out (x :: rest)
        = seqLoopV fuel merged true ((if has_elements then out ++ "," else out) ++ txt) rest) ∧
    serialize (.vSeq [.vI64 1, .vStr "boom"]) = .error (.unexpectedType .number .string) ∧
    serialize (.vSeq [.vStruct "Foo" [("x", .vI64 42)], .vStruct "Bar" [("x", .vStr "boom")]])
      = .error (.unexpectedType (.struct [(.number, Option.some "x")])
                                (.struct [(.string, Option.some "x")])) := by
  refine ⟨fun fuel xs => rfl, fun fuel element_type has_elements out => ?_, ?_, ?_, rfl, rfl⟩
  · cases fuel <;> rfl
  · intro fuel element_type has_elements out x rest txt t h1 h2
    simp only [seqLoopV, h1, h2]
  · intro fuel element_type has_elements out x rest txt t merged h1 h2
    simp only [seqLoopV, h1, h2]

/-- C3 witness: the merge-failure step at a struct element whose field type
conflicts with the established shape, and the merge-success step at the first
element of the heterogeneous example. -/
theorem claim_C3_witness :
    seqLoopV 21 (.struct [(.number, Option.some "x")]) true "["
        [.vStruct "Bar" [("x", .vStr "boom")]]
      = .error (.unexpectedType (.struct [(.number, Option.some "x")])
                                (.struct [(.string, Option.some "x")])) ∧
    seqLoopV 6 .any false "[" [.vI64 1, .vStr "boom"]
      = seqLoopV 5 .number true ((if false then "[" ++ "," else "[") ++ "1") [.vStr "boom"] :=
  ⟨claim_C3_seq_merge_folding.2.2.1 20 (.struct [(.number, Option.some "x")]) true "["
      (.vStruct "Bar" [("x", .vStr "boom")]) [] "STRUCT(\"boom\" AS `x`)"
      (.struct [(.string, Option.some "x")]) rfl rfl,
   claim_C3_seq_merge_folding.2.2.2.1 5 .any false "[" (.vI64 1) [.vStr "boom"] "1"
      .number .number rfl rfl⟩

/-- C4: a zero-field tuple, tuple struct or struct fails EmptyStruct
immediately (also under the typed wrapper), an empty map fails at close, a
close with an empty field list (with or without a normalizer) fails, and any
successful close returns a non-empty struct type — the complete text STRUCT()
is never produced. -/
theorem claim_C4_empty_struct :
    serialize (.vTuple []) = .error .emptyStruct ∧
    (∀ name, serialize (.vTupleStruct name []) = .error .emptyStruct) ∧
    (∀ name, serialize (.vStruct name []) = .error .emptyStruct) ∧
    serialize (.vMap []) = .error .emptyStruct ∧
    (∀ fuel efields,
      serializeTypedV (fuel + 1) (.struct efields) (.vTuple []) = .error .emptyStruct) ∧
    (∀ out, serialize_struct_end out [] Option.none = .error .emptyStruct) ∧
    (∀ out buffer, serialize_struct_end out [] (Option.some ([], buffer)) = .error .emptyStruct) ∧
    (∀ out fields st s t, serialize_struct_end out fields st = .ok (s, t) →
      ∃ fs, t = .struct fs ∧ fs ≠ []) :=
  ⟨rfl, fun _ => rfl, fun _ => rfl, rfl, fun _ _ => rfl, fun _ => rfl,
   fun _ _ => rfl,
   fun out fields st s t h => serialize_struct_end_ok_nonempty out fields st s t h⟩

/-- C4 witness: a concrete successful close — its struct type is non-empty. -/
theorem claim_C4_witness :
    ∃ fs, (BQType.struct [(.bool, Option.none)]) = .struct fs ∧ fs ≠ [] :=
  claim_C4_empty_struct.2.2.2.2.2.2.2 "STRUCT(TRUE" [(.bool, Option.none)] Option.none
    "STRUCT(TRUE)" (.struct [(.bool, Option.none)]) rfl

/-- C5 counterexample: the same out-of-order field name b appears twice
within one element (with different rendered types), yet the encode succeeds —
refuting the claim that a repeated out-of-order name within one element is
always a DuplicateStructField error. -/
theorem claim_C5_counterexample :
    serialize (.vSeq [.vMap [(.vStr "a", .vI64 1), (.vStr "b", .vI64 2)],
                      .vMap [(.vStr "b", .vStr "x"), (.vStr "b", .vI64 3), (.vStr "a", .vI64 5)]])
      = .ok ("[STRUCT(1 AS `a`,2 AS `b`),STRUCT(5 AS `a`,3 AS `b`)]",
             .array (.struct [(.number, Option.some "a"), (.number, Option.some "b")])) := rfl

/-- C5 (amended): an out-of-order member is rendered in isolation and
buffered keyed by its resolved Field (rendered type plus name); encoding
fails DuplicateStructField with the field's name exactly when that resolved
Field is already buffered — the same name with a different rendered type is
not detected — as in the concrete repeated b:number element which fails. -/
theorem claim_C5_duplicate_resolved_field :
    (∀ fuel out fields ht en tail buffer key v rest txt t,
      ¬ en = key →
      serializeV fuel v = .ok (txt, t) →
      (lookupRemove buffer (t, Option.some key)).isSome = true →
      structLoopV (fuel + 1) out fields (Option.some ((ht, Option.some en) :: tail, buffer))
          ((key, v) :: rest)
        = .error (.duplicateStructField key)) ∧
    (∀ fuel out fields ht en tail buffer key v rest txt t,
      ¬ en = key →
      serializeV fuel v = .ok (txt, t) →
      lookupRemove buffer (t, Option.some key) = Option.none →
      structLoopV (fuel + 1) out fields (Option.some ((ht, Option.some en) :: tail, buffer))
          ((key, v) :: rest)
        = structLoopV fuel out fields
            (Option.some ((ht, Option.some en) :: tail,
              buffer ++ [((t, Option.some key), txt)])) rest) ∧
    serialize (.vSeq [.vMap [(.vStr "a", .vI64 1), (.vStr "b", .vI64 2)],
                      .vMap [(.vStr "b", .vI64 1), (.vStr "b", .vI64 2), (.vStr "a", .vI64 5)]])
      = .error (.duplicateStructField "b") := by
  refine ⟨?_, ?_, rfl⟩
  · intro fuel out fields ht en tail buffer key v rest txt t hne hser hbuf
    obtain ⟨p, hp⟩ := Option.isSome_iff_exists.mp hbuf
    simp only [structLoopV, hser, hp, if_neg hne]
  · intro fuel out fields ht en tail buffer key v rest txt t hne hser hbuf
    simp only [structLoopV, hser, hbuf, if_neg hne]

/-- C5 witness: the amended duplicate rule applied at concrete inputs — a
buffered number-typed b collides with a second number-typed b, and a fresh
out-of-order b is buffered keyed by its rendered type and name. -/
theorem claim_C5_witness :
    structLoopV 6 "STRUCT(" [] (Option.some ([((.number : BQType), Option.some "a")],
        [(((.number : BQType), Option.some "b"), "1")])) [("b", .vI64 2)]
      = .error (.duplicateStructField "b") ∧
    structLoopV 6 "STRUCT(" [] (Option.some ([((.number : BQType), Option.some "a")], []))
        [("b", .vI64 1)]
      = structLoopV 5 "STRUCT(" [] (Option.some ([((.number : BQType), Option.some "a")],
          [] ++ [(((.number : BQType), Option.some "b"), "1")])) [] :=
  ⟨claim_C5_duplicate_resolved_field.1 5 "STRUCT(" [] .number "a" []
      [(((.number : BQType), Option.some "b"), "1")] "b" (.vI64 2) [] "2" .number
      (by decide) rfl rfl,
   claim_C5_duplicate_resolved_field.2.1 5 "STRUCT(" [] .number "a" [] [] "b" (.vI64 1) []
      "1" .number (by decide) rfl rfl⟩

/-- C6: every scalar writes exactly the specified text with the specified
inferred type — booleans TRUE or FALSE with Bool, every integer width its
decimal representation with Number, floats their decimal rendering with
Number, strings their raw content in double quotes with String, byte
sequences the b-quoted lowercase hex escapes with Bytes, and an absent
optional, a unit or a unit struct the literal NULL with Any — including the
spec's concrete examples. -/
theorem claim_C6_scalar_encodings :
    (∀ b : Bool, serialize (.vBool b) = .ok (if b then "TRUE" else "FALSE", .bool)) ∧
    to_string (.vBool true) = .ok "TRUE" ∧
    to_string (.vBool false) = .ok "FALSE" ∧
    (∀ n : Int, serialize (.vI64 n) = .ok (toString n, .number)) ∧
    (∀ n : Nat, serialize (.vU64 n) = .ok (toString n, .number)) ∧
    to_string (.vI64 42) = .ok "42" ∧
    (∀ s, serialize (.vF64 s) = .ok (s, .number)) ∧
    to_string (.vF64 "1.25") = .ok "1.25" ∧
    (∀ s, serialize (.vStr s) = .ok ("\"" ++ s ++ "\"", .string)) ∧
    to_string (.vStr "foo") = .ok "\"foo\"" ∧
    (∀ bs, serialize (.vBytes bs)
      = .ok ("b\"" ++ String.join (bs.map hexByte) ++ "\"", .bytes)) ∧
    to_string (.vBytes [102, 111, 111]) = .ok "b\"\\x66\\x6f\\x6f\"" ∧
    serialize .vNone = .ok ("NULL", .any) ∧
    serialize .vUnit = .ok ("NULL", .any) ∧
    (∀ name, serialize (.vUnitStruct name) = .ok ("NULL", .any)) :=
  ⟨fun _ => rfl, rfl, rfl, fun _ => rfl, fun _ => rfl, rfl, fun _ => rfl, rfl,
   fun _ => rfl, rfl, fun _ => rfl, rfl, rfl, rfl, fun _ => rfl⟩

/-- C7: the identifier encoder accepts strings, characters, unit values and
unit-tagged values (name or variant as the identifier text), and byte
sequences exactly when they decode as UTF-8 text; booleans, numbers,
non-text byte sequences, sequences, struct-, map- and tuple-shaped
aggregates and tagged aggregate variants fail InvalidIdentifierType with the
offending type. -/
theorem claim_C7_identifier_accepts_rejects :
    (∀ s, to_identifier (.vStr s) = .ok s) ∧
    (∀ c, to_identifier (.vChar c) = .ok c.toString) ∧
    to_identifier .vUnit = .ok "" ∧
    (∀ name, to_identifier (.vUnitStruct name) = .ok name) ∧
    (∀ name variant, to_identifier (.vUnitVariant name variant) = .ok variant) ∧
    (∀ bs, to_identifier (.vBytes bs)
      = (match utf8Decode bs with
         | Option.some cs => .ok (String.mk cs)
         | Option.none => .error (.invalidIdentifierType .bytes))) ∧
    (∀ b, to_identifier (.vBool b) = .error (.invalidIdentifierType .bool)) ∧
    (∀ n : Int, to_identifier (.vI64 n) = .error (.invalidIdentifierType .number)) ∧
    (∀ n : Nat, to_identifier (.vU64 n) = .error (.invalidIdentifierType .number)) ∧
    (∀ s, to_identifier (.vF64 s) = .error (.invalidIdentifierType .number)) ∧
    (∀ xs, to_identifier (.vSeq xs) = .error (.invalidIdentifierType (.array .any))) ∧
    (∀ xs, to_identifier (.vTuple xs) = .error (.invalidIdentifierType (.struct []))) ∧
    (∀ name xs, to_identifier (.vTupleStruct name xs)
      = .error (.invalidIdentifierType (.struct []))) ∧
    (∀ es, to_identifier (.vMap es) = .error (.invalidIdentifierType (.struct []))) ∧
    (∀ name fs, to_identifier (.vStruct name fs)
      = .error (.invalidIdentifierType (.struct []))) ∧
    (∀ name variant xs, to_identifier (.vTupleVariant name variant xs)
      = .error (.invalidIdentifierType (.struct []))) ∧
    (∀ name variant fs, to_identifier (.vStructVariant name variant fs)
      = .error (.invalidIdentifierType (.struct []))) :=
  ⟨fun _ => rfl, fun _ => rfl, rfl, fun _ => rfl, fun _ _ => rfl, fun _ => rfl,
   fun _ => rfl, fun _ => rfl, fun _ => rfl, fun _ => rfl, fun _ => rfl, fun _ => rfl,
   fun _ _ => rfl, fun _ => rfl, fun _ _ => rfl, fun _ _ _ => rfl, fun _ _ _ => rfl⟩

/-- C8: matches is a symmetric compatibility predicate with Any matching
everything: Any matches every type on either side, every type matches
itself, and matches is symmetric. -/
theorem claim_C8_matches_any_refl_symm :
    (∀ a : BQType, BQType.matches .any a = true ∧ BQType.matches a .any = true) ∧
    (∀ a : BQType, a.matches a = true) ∧
    (∀ a b : BQType, a.matches b = b.matches a) :=
  ⟨fun a => ⟨matches_any_left a, matches_any_right a⟩, matches_refl, matches_symm⟩

/-- C9: merge succeeds commutatively — merging in either order is defined on
exactly the same pairs — while the merged field name prefers the first
operand's name, falling back to the second's, so the two orders can produce
structurally different names. -/
theorem claim_C9_merge_commutative_success :
    (∀ a b : BQType, (a.merge b).isSome = (b.merge a).isSome) ∧
    (∀ a b f, Field.merge a b = some f → f.2 = (if a.2.isSome then a.2 else b.2)) ∧
    (∃ a b : Field, (Field.merge a b).map Prod.snd ≠ (Field.merge b a).map Prod.snd) := by
  refine ⟨merge_isSome_comm, ?_, ⟨(.bool, some "x"), (.bool, some "y"), by decide⟩⟩
  intro a b f h
  unfold Field.merge at h
  cases hm : BQType.merge a.1 b.1 with
  | none => rw [hm] at h; simp at h
  | some t =>
    rw [hm] at h
    simp at h
    rw [← h]
    cases a.2 <;> rfl

/-- C9 witness: the name-preference rule applied at a concrete merge of two
bool fields named x and y. -/
theorem claim_C9_witness :
    ((BQType.bool, Option.some "x") : Field).2
      = (if (Option.some "x" : Option String).isSome then Option.some "x"
         else Option.some "y") :=
  claim_C9_merge_commutative_success.2.1 (.bool, Option.some "x") (.bool, Option.some "y")
    (.bool, Option.some "x") rfl

/-- C10: the compatibility predicate and merge success coincide — matches is
true exactly when merge returns a value. -/
theorem claim_C10_matches_iff_merge :
    ∀ a b : BQType, a.matches b = (a.merge b).isSome :=
  matches_eq_merge_isSome

end SerdeBigquery
